import Mathlib

/-!
Verification of the btcgui wallet-link client (the websocket JSON-RPC
correlator, notification router, reconnect loop and command API of the
btcgui repository) against its natural-language specification.

The Go sources are embedded shallowly:

* JSON values decoded by Go's `encoding/json` into `interface{}` are the
  inductive `JsonValue`.  Go decodes every JSON number into a `float64`;
  all numeric payloads the client inspects (ids, block heights, balances)
  are used as integral values, so numbers are modelled as `Int`, and the
  Go conversion `uint64(x)` on an id is `toUint64`.
* The pending-request map `replyHandlers.m : map[uint64]func(...)`
  (updates.go / part_004) is an association list `List (Nat × κ)` with
  Go-map semantics: `lookupH` is map indexing, `eraseH` is `delete`,
  `insertH` is assignment (which overwrites).  The `sync.Mutex` around
  the map serializes every access, so a run of the system is a linear
  sequence of map operations; traces over `CorrEvent` model exactly
  those serialized accesses.
* Channel sends performed by reply handlers and notification handlers
  are recorded as `ChanMsg` values instead of being performed.
* A Go `panic` from a failed unchecked type assertion is `Option.none`
  at the top of the corresponding function.
-/

namespace Btcgui

/-- A decoded JSON value as produced by Go's `encoding/json` unmarshalling
into `interface{}`.  JSON numbers (Go `float64`) are modelled as `Int`
because every number the client reads is used integrally. -/
inductive JsonValue where
  | null
  | bool (b : Bool)
  | num (n : Int)
  | str (s : String)
  | arr (elems : List JsonValue)
  | obj (fields : List (String × JsonValue))

/-- `btcjson.Error`: the error member of a JSON-RPC reply envelope. -/
structure BtcError where
  code : Int
  message : String
deriving Repr, DecidableEq

/-- One message pushed onto one of the package-level channels
(`updateChans`, `triggerReplies`) of part_004. -/
inductive ChanMsg where
  | btcdConnected (b : Bool)
  | btcwalletConnected (b : Bool)
  | bcHeight (h : Int)
  | balance (x : Int)
  | unconfirmed (x : Int)
  | lockState (b : Bool)
  | addrs (l : List String)
  | newAddrAddr (s : String)
  | newAddrRpcErr (m : String)
  | newAddrTransportErr
  | unlockSuccessful (b : Bool)
  | sendTxErr (e : Option BtcError)
deriving Repr, DecidableEq

/-- Go dynamic type assertion `v.(bool)` with the `ok` form. -/
def asBool : JsonValue → Option Bool
  | .bool b => some b
  | _ => none

/-- Go dynamic type assertion `v.(float64)` with the `ok` form
(numbers modelled as `Int`). -/
def asNum : JsonValue → Option Int
  | .num n => some n
  | _ => none

/-- Go dynamic type assertion `v.(map[string]interface{})` with the
`ok` form. -/
def asObj : JsonValue → Option (List (String × JsonValue))
  | .obj fields => some fields
  | _ => none

/-- Go map indexing `r[key]` on a decoded JSON object: `none` when the
key is absent (the nil interface value, on which any type assertion
with the `ok` form yields false). -/
def objGet : List (String × JsonValue) → String → Option JsonValue
  | [], _ => none
  | (k, v) :: rest, key => if k = key then some v else objGet rest key

/-- Go conversion `uint64(x)` applied to a decoded JSON number
(part_004 line 223); negative values are clamped by `Int.toNat` and the
result is reduced mod 2^64. -/
def toUint64 (x : Int) : Nat := x.toNat % 2 ^ 64

/-! ## The pending-request map (`replyHandlers.m`) -/

/-- Go map indexing `replyHandlers.m[n]`. -/
def lookupH {κ : Type} : List (Nat × κ) → Nat → Option κ
  | [], _ => none
  | (k, f) :: rest, n => if k = n then some f else lookupH rest n

/-- Go `delete(replyHandlers.m, n)`. -/
def eraseH {κ : Type} (st : List (Nat × κ)) (n : Nat) : List (Nat × κ) :=
  st.filter (fun p => p.1 != n)

/-- Go map assignment `replyHandlers.m[n] = f` (overwrites any previous
entry for key `n`). -/
def insertH {κ : Type} (st : List (Nat × κ)) (n : Nat) (f : κ) : List (Nat × κ) :=
  (n, f) :: eraseH st n

/-! ## The JSON id generator (`JSONIDGenerator`, part_004 lines 141-147)

`JSONIDGenerator` owns a local `uint64` counter `n`, sends the current
value across the channel and increments; `jsonID k` is the `k`-th id
the single-threaded generator issues (`uint64` arithmetic wraps at
`2 ^ 64`). -/

/-- The `k`-th id issued by `JSONIDGenerator`: the counter starts at 0
and each send is followed by a `uint64` increment. -/
def jsonID : Nat → Nat
  | 0 => 0
  | k + 1 => (jsonID k + 1) % 2 ^ 64

/-! ## The notification handler (`handleBtcwalletNtfn`, part_004 lines 254-313) -/

/-- Body of the `"btcwallet:accountbalance"` and
`"btcwallet:accountbalanceunconfirmed"` cases (part_004 lines 268-300):
the result must be a map, `r["account"]` must assert to a string and
`r["notification"]` to a number (all with the checked `ok` form,
returning early otherwise), and the balance is pushed only for the
default account `""`. -/
def accountBalanceMsgs (mk : Int → ChanMsg) (result : JsonValue) : List ChanMsg :=
  match asObj result with
  | none => []
  | some r =>
    match objGet r "account" with
    | some (.str account) =>
      match objGet r "notification" with
      | some (.num balance) => if account = "" then [mk balance] else []
      | _ => []
    | _ => []

/-- Body of the `"btcwallet:newwalletlockstate"` case (part_004 lines
302-308).  The outer map assertion is checked with the `ok` form, but
`m["account"].(string)` and `m["notification"].(bool)` are unchecked
assertions: a failure panics, modelled as `none`. -/
def lockStateMsgs (result : JsonValue) : Option (List ChanMsg) :=
  match asObj result with
  | none => some []
  | some m =>
    match objGet m "account" with
    | some (.str account) =>
      if account = "" then
        match objGet m "notification" with
        | some (.bool b) => some [ChanMsg.lockState b]
        | _ => none
      else some []
    | _ => none

/-- `handleBtcwalletNtfn` (part_004 lines 254-313): routes a
notification by its string id and pushes the associated GUI update
channel messages.  `none` models a panic from a failed unchecked type
assertion; unhandled ids are logged and produce no messages. -/
def handleBtcwalletNtfn (id : String) (result : JsonValue) : Option (List ChanMsg) :=
  if id = "btcwallet:btcdconnected" then
    some (match asBool result with
          | some r => [ChanMsg.btcdConnected r]
          | none => [])
  else if id = "btcwallet:newblockchainheight" then
    some (match asNum result with
          | some r => [ChanMsg.bcHeight r]
          | none => [])
  else if id = "btcwallet:accountbalance" then
    some (accountBalanceMsgs ChanMsg.balance result)
  else if id = "btcwallet:accountbalanceunconfirmed" then
    some (accountBalanceMsgs ChanMsg.unconfirmed result)
  else if id = "btcwallet:newwalletlockstate" then
    lockStateMsgs result
  else
    some []

/-- The payload shape the two account-balance notifications expect: a
map with a string `"account"` and a numeric `"notification"`. -/
def balanceShape (v : JsonValue) : Bool :=
  match asObj v with
  | some r =>
    (match objGet r "account" with
     | some (.str _) => true
     | _ => false)
    && (match objGet r "notification" with
        | some (.num _) => true
        | _ => false)
  | none => false

/-- The payload shape each of the four checked notification methods
expects: a bool for `btcdconnected`, a number for
`newblockchainheight`, and a map with a string `"account"` and a
numeric `"notification"` for the two account-balance methods. -/
def expectedShape (id : String) (v : JsonValue) : Bool :=
  if id = "btcwallet:btcdconnected" then (asBool v).isSome
  else if id = "btcwallet:newblockchainheight" then (asNum v).isSome
  else if id = "btcwallet:accountbalance" ∨ id = "btcwallet:accountbalanceunconfirmed" then
    balanceShape v
  else false

/-! ## The correlator as a trace of serialized map operations

The `replyHandlers` mutex serializes every registration
(`replyHandlers.m[n] = f`, performed by each command sender before its
transport write) and every dispatch (`f := m[uintID]; delete(m, uintID)`
followed by `if f != nil { go f(...) }`, part_004 lines 224-229).  A
`CorrEvent` trace is one such serialized order; `κ` identifies the
registered callbacks (each Go closure is a distinct value). -/

/-- One serialized access to the pending-request map: a registration of
a callback under an id, or the arrival of a reply frame carrying a
numeric id. -/
inductive CorrEvent (κ : Type) where
  | register (id : Nat) (callback : κ)
  | deliver (id : Nat)
deriving DecidableEq

/-- The correlator state: the pending-request map plus the log of
callback invocations performed so far (each entry is the dispatched id
with the callback that was fired for it). -/
structure CorrRun (κ : Type) where
  state : List (Nat × κ)
  invoked : List (Nat × κ)
deriving DecidableEq

/-- One serialized step: a registration stores the callback under the
id (part_004 lines 333-341 and the parallel senders); a delivery looks
the id up, deletes it, and fires the callback iff one was found
(part_004 lines 223-229). -/
def corrStep {κ : Type} (r : CorrRun κ) : CorrEvent κ → CorrRun κ
  | .register n f => { r with state := insertH r.state n f }
  | .deliver n =>
    match lookupH r.state n with
    | some f => { state := eraseH r.state n, invoked := r.invoked ++ [(n, f)] }
    | none => { r with state := eraseH r.state n }

/-- Run a serialized trace from the empty pending-request map. -/
def corrRun {κ : Type} (evs : List (CorrEvent κ)) : CorrRun κ :=
  evs.foldl corrStep ⟨[], []⟩

/-- The ids of the registrations in a trace, in order. -/
def regIds {κ : Type} : List (CorrEvent κ) → List Nat
  | [] => []
  | .register n _ :: rest => n :: regIds rest
  | .deliver _ :: rest => regIds rest

/-! ## Frame dispatch with concrete reply handlers
(`ListenAndUpdate` select loop, part_004 lines 199-250)

Here the map values are the actual Go reply-handler closures, modelled
as functions from the decoded `(result, error)` pair to the channel
messages they push. -/

/-- A reply handler closure stored in `replyHandlers.m`. -/
def Handler : Type := JsonValue → Option BtcError → List ChanMsg

/-- One frame received from the websocket read loop, after
`json.Unmarshal` into a `btcjson.Reply` envelope: either the unmarshal
failed, or an envelope with its (possibly absent or null) id, result
and error members. -/
inductive Frame where
  | malformed
  | reply (id : Option JsonValue) (result : JsonValue) (error : Option BtcError)

/-- An observable effect of processing one frame. -/
inductive FrameOut where
  | logUnmarshalErr
  | logInvalidId
  | callback (id : Nat) (msgs : List ChanMsg)
  | notification (method : String) (msgs : List ChanMsg)
deriving Repr, DecidableEq

/-- Processing of one frame by the `ListenAndUpdate` select loop
(part_004 lines 201-235): a frame that fails to unmarshal is logged and
skipped; a nil id is logged and skipped; a `float64` id is converted to
`uint64` and dispatched through the pending-request map (the entry is
deleted and the handler, when one was registered, is invoked with the
result and error); a string id is routed to `handleBtcwalletNtfn`; an
id of any other dynamic type matches no switch case and is dropped
silently.  `none` models a process crash (panic). -/
def processFrame (st : List (Nat × Handler)) :
    Frame → Option (List (Nat × Handler) × List FrameOut)
  | .malformed => some (st, [.logUnmarshalErr])
  | .reply none _ _ => some (st, [.logInvalidId])
  | .reply (some idv) result error =>
    match idv with
    | .num x =>
      let n := toUint64 x
      match lookupH st n with
      | some f => some (eraseH st n, [.callback n (f result error)])
      | none => some (eraseH st n, [])
    | .str s =>
      match handleBtcwalletNtfn s result with
      | some msgs => some (st, [.notification s msgs])
      | none => none
    | _ => some (st, [])

/-- Processing of a sequence of frames in arrival order by the
select loop. -/
def processFrames (st : List (Nat × Handler)) :
    List Frame → Option (List (Nat × Handler) × List FrameOut)
  | [] => some (st, [])
  | f :: fs =>
    match processFrame st f with
    | none => none
    | some (st', out) =>
      match processFrames st' fs with
      | none => none
      | some (st'', outs) => some (st'', out ++ outs)

/-! ## Command senders (part_004 lines 315-693)

Each sender obtains an id from the generator, registers its reply
handler under the id, serializes the request and writes it to the
websocket.  `sendOk` is the outcome of `websocket.Message.Send`;
message construction (`btcjson.CreateMessageWithId` / `json.Marshal`)
cannot fail for these fixed methods and marshallable arguments, so the
early-return branches on construction errors are unreachable and not
modelled. -/

/-- Result of running one command sender: the pending-request map after
the call, the channel messages the call itself pushed, and whether the
sender returned a non-nil error to its caller (every caller in
part_004 discards this value). -/
structure CmdExec where
  handlers : List (Nat × Handler)
  emitted : List ChanMsg
  retErr : Bool

/-- The reply handler registered by `cmdGetNewAddress` (part_004 lines
334-340): an RPC error is forwarded as an error, a string result as the
new address; a non-string result is dropped. -/
def newAddrHandler : Handler := fun result err =>
  match err with
  | some e => [ChanMsg.newAddrRpcErr e.message]
  | none =>
    match result with
    | .str addr => [ChanMsg.newAddrAddr addr]
    | _ => []

/-- `cmdGetNewAddress` (part_004 lines 318-349): registers
`newAddrHandler` under the fresh id and writes the request; if the
write fails, the registration is deleted under the lock and the write
error is sent to the `newAddr` trigger-reply channel. -/
def cmdGetNewAddress (st : List (Nat × Handler)) (n : Nat) (sendOk : Bool) : CmdExec :=
  let st' := insertH st n newAddrHandler
  if sendOk then ⟨st', [], false⟩
  else ⟨eraseH st' n, [ChanMsg.newAddrTransportErr], false⟩

/-- The reply handler registered by `cmdWalletPassphrase` (part_004
lines 627-629): pushes whether the unlock succeeded (error was nil). -/
def walletPassphraseHandler : Handler := fun _ err =>
  [ChanMsg.unlockSuccessful err.isNone]

/-- `cmdWalletPassphrase` (part_004 lines 613-633): registers
`walletPassphraseHandler` under the fresh id, then returns the result
of the websocket write directly — on a write failure the registration
is left in the map and nothing is sent on any trigger-reply channel. -/
def cmdWalletPassphrase (st : List (Nat × Handler)) (n : Nat) (sendOk : Bool) : CmdExec :=
  let st' := insertH st n walletPassphraseHandler
  ⟨st', [], !sendOk⟩

/-- The reply handler registered by `cmdSendMany` (part_004 lines
657-664): forwards the RPC error, or nil on success, to the `sendTx`
trigger-reply channel. -/
def sendManyHandler : Handler := fun _ err =>
  match err with
  | some e => [ChanMsg.sendTxErr (some e)]
  | none => [ChanMsg.sendTxErr none]

/-- `cmdSendMany` (part_004 lines 639-668): registers `sendManyHandler`
under the fresh id, then returns the result of the websocket write
directly — on a write failure the registration is left in the map and
nothing is sent on any trigger-reply channel. -/
def cmdSendMany (st : List (Nat × Handler)) (n : Nat) (sendOk : Bool) : CmdExec :=
  let st' := insertH st n sendManyHandler
  ⟨st', [], !sendOk⟩

/-! ## The reconnect loop (`StartMainApplication`, main.go lines
145-177) and the connection phase of `ListenAndUpdate` (part_004 lines
154-198) -/

/-- A value `ListenAndUpdate` sends on its error channel `c`:
`ErrConnectionRefused`, `ErrConnectionLost`, or `nil` (connected). -/
inductive ConnNotice where
  | refused
  | lost
  | connected
deriving Repr, DecidableEq

/-- An observable action of the reconnect loop body in
`StartMainApplication`. -/
inductive MainAction where
  | pushBtcwalletConnected (b : Bool)
  | sleepBackoff
  | logEstablished
  | logUnknown
deriving Repr, DecidableEq

/-- The reconnect loop's reaction to one value received on the error
channel (main.go lines 158-173): refused and lost push
`btcwalletConnected <- false` and then sleep the fixed 5-second
backoff; nil pushes `btcwalletConnected <- true` and logs. -/
def handleConnNotice : ConnNotice → List MainAction
  | .refused => [.pushBtcwalletConnected false, .sleepBackoff]
  | .lost => [.pushBtcwalletConnected false, .sleepBackoff]
  | .connected => [.pushBtcwalletConnected true, .logEstablished]

/-- An action of the connection phase of `ListenAndUpdate`, in program
order. -/
inductive LAUStep where
  | startUpdaters
  | emit (n : ConnNotice)
  | spawnReadLoop
  | spawnWalletReqs
  | spawnBtcdReqs
  | enterSelectLoop
deriving Repr, DecidableEq

/-- The straight-line connection phase of `ListenAndUpdate` (part_004
lines 157-198) as the ordered list of its actions, as a function of
whether the websocket dial (the handshake) succeeds: the updater
goroutines are started, the dial is attempted; on failure
`ErrConnectionRefused` is sent on `c` and the function returns; on
success `nil` is sent on `c`, then the read-loop goroutine is started,
then the wallet and btcd subscription/initial-request goroutines are
started, then the select loop is entered. -/
def listenAndUpdateConnTrace (dialOk : Bool) : List LAUStep :=
  if dialOk then
    [.startUpdaters, .emit .connected, .spawnReadLoop,
     .spawnWalletReqs, .spawnBtcdReqs, .enterSelectLoop]
  else
    [.startUpdaters, .emit .refused]

/-! ## The unlock-and-retry flow (`txSenderAndReplyListener`, part_000
lines 332-383, and `createUnlockDialog`, unlockdialog.go lines
130-177) -/

/-- An event observed on the `success` channel handed to
`createUnlockDialog`: either a sent unlock outcome, or the channel
being closed (the dialog was cancelled). -/
inductive UnlockEvent where
  | sent (success : Bool)
  | closed
deriving Repr, DecidableEq

/-- The listener goroutine `txSenderAndReplyListener` starts before
opening the unlock dialog (part_000 lines 343-358): it loops reading
the channel; a close aborts with no retry, a received `true` re-issues
the original send exactly once and returns, a received `false` keeps
waiting.  The value is the number of re-issues triggered. -/
def unlockRetryCount : List UnlockEvent → Nat
  | [] => 0
  | .closed :: _ => 0
  | .sent true :: _ => 1
  | .sent false :: rest => unlockRetryCount rest

/-- A user interaction with the unlock dialog: OK with the daemon's
unlock outcome, or Cancel. -/
inductive DialogResponse where
  | ok (unlockReplyOk : Bool)
  | cancel
deriving Repr, DecidableEq

/-- The events `createUnlockDialog` produces on its `success` channel
(unlockdialog.go lines 130-175): an OK response sends the unlock
outcome — on success the dialog is destroyed (no further events), on
failure it stays open for further responses; a Cancel response closes
the channel and destroys the dialog. -/
def unlockDialogEvents : List DialogResponse → List UnlockEvent
  | [] => []
  | .ok b :: rest => .sent b :: (if b then [] else unlockDialogEvents rest)
  | .cancel :: _ => [.closed]

/-- `txSenderAndReplyListener` (part_000 lines 332-383): after pushing
the send trigger, the reply determines the flow.  A `*btcjson.Error`
with code -13 (wallet must be unlocked) opens the unlock dialog and
retries according to `unlockRetryCount`; any other error shows an error
dialog with no retry; a nil reply is success with no retry. -/
def txSenderRetries (reply : Option BtcError) (events : List UnlockEvent) : Nat :=
  match reply with
  | some e => if e.code = -13 then unlockRetryCount events else 0
  | none => 0

/-- Whether `txSenderAndReplyListener` opens the unlock dialog for a
given reply (part_000 lines 337-367): exactly on error code -13. -/
def txSenderShowsUnlockDialog (reply : Option BtcError) : Bool :=
  match reply with
  | some e => e.code == -13
  | none => false

/-- Modelled from the spec: the consumer of the `getnewaddress`
trigger-reply channel is missing from src/ (the channel filled by
`cmdGetNewAddress` has no reader in the snapshot, while the
`unlockForKeypool` dialog text it would use is present in
unlockdialog.go).  Per the spec, on the keypool-exhausted error (code
-13) it opens the unlock dialog and, after a successful unlock,
re-issues `getnewaddress` exactly once through the same trigger; a
cancelled unlock aborts with no retry — the same protocol as the
transaction-send flow. -/
def newAddrRetries (reply : Option BtcError) (events : List UnlockEvent) : Nat :=
  match reply with
  | some e => if e.code = -13 then unlockRetryCount events else 0
  | none => 0

/-! ## The application version (part_006 lines 243-389) -/

/-- `semanticAlphabet` (part_006 line 243). -/
def semanticAlphabet : String :=
  "0123456789ABCDEFGHIJKLMNOPQRSTUVWXYZabcdefghijklmnopqrstuvwxyz-"

/-- The package-level version constants (part_006 lines 247-255). -/
def appMajor : Nat := 0

def appMinor : Nat := 2

def appPatch : Nat := 0

def appPreRelease : String := "alpha"

/-- `normalizeVerString` (part_006 lines 381-389): keeps exactly the
runes contained in `semanticAlphabet`. -/
def normalizeVerString (str : String) : String :=
  String.mk (str.data.filter (fun r => semanticAlphabet.contains r))

/-- The `appVersion` struct (part_006 lines 262-268). -/
structure AppVersion where
  major : Nat
  minor : Nat
  patch : Nat
  prerelease : String
  metadata : String

/-- `appVersion.String` (part_006 lines 287-310), parametrized by the
package variable `appBuild`: the string is assembled from the
package-level constants `appMajor`, `appMinor`, `appPatch`,
`appPreRelease` and the variable `appBuild`; the receiver `v` is never
read. -/
def appVersionString (appBuild : String) (v : AppVersion) : String :=
  let base := toString appMajor ++ "." ++ toString appMinor ++ "." ++ toString appPatch
  let preRelease := normalizeVerString appPreRelease
  let withPre := if preRelease ≠ "" then base ++ "-" ++ preRelease else base
  let build := normalizeVerString appBuild
  if build ≠ "" then withPre ++ "+" ++ build else withPre

/-- The file contents `appVersion.SaveToDataDir` writes to
`version.txt` (part_006 line 368): `v.String()` followed by a
newline. -/
def saveToDataDirContents (appBuild : String) (v : AppVersion) : String :=
  appVersionString appBuild v ++ "\n"

/-! ## Supporting lemmas -/

theorem lookupH_insert_self {κ : Type} (st : List (Nat × κ)) (n : Nat) (f : κ) :
    lookupH (insertH st n f) n = some f := by
  simp [insertH, lookupH]

theorem lookupH_mem {κ : Type} {st : List (Nat × κ)} {n : Nat} {f : κ}
    (h : lookupH st n = some f) : (n, f) ∈ st := by
  induction st with
  | nil => simp [lookupH] at h
  | cons p rest ih =>
    obtain ⟨k, v⟩ := p
    rw [lookupH] at h
    by_cases hk : k = n
    · subst hk
      simp at h
      subst h
      exact List.mem_cons_self _ _
    · simp [hk] at h
      exact List.mem_cons_of_mem _ (ih h)

theorem mem_eraseH {κ : Type} {st : List (Nat × κ)} {n : Nat} {p : Nat × κ} :
    p ∈ eraseH st n ↔ p ∈ st ∧ p.1 ≠ n := by
  simp [eraseH, List.mem_filter]

theorem eraseH_sublist {κ : Type} (st : List (Nat × κ)) (n : Nat) :
    (eraseH st n).Sublist st :=
  List.filter_sublist st

theorem not_mem_keys_eraseH {κ : Type} (st : List (Nat × κ)) (n : Nat) :
    n ∉ (eraseH st n).map Prod.fst := by
  intro h
  rcases List.mem_map.mp h with ⟨p, hp, hfst⟩
  exact (mem_eraseH.mp hp).2 hfst

theorem keys_eraseH_subset {κ : Type} {st : List (Nat × κ)} {n m : Nat}
    (h : m ∈ (eraseH st n).map Prod.fst) : m ∈ st.map Prod.fst :=
  ((eraseH_sublist st n).map Prod.fst).mem h

theorem mem_keys_eraseH_of_ne {κ : Type} {st : List (Nat × κ)} {n m : Nat}
    (hne : m ≠ n) (h : m ∈ st.map Prod.fst) : m ∈ (eraseH st n).map Prod.fst := by
  rcases List.mem_map.mp h with ⟨p, hp, hfst⟩
  exact List.mem_map.mpr ⟨p, mem_eraseH.mpr ⟨hp, hfst ▸ hne⟩, hfst⟩

theorem keys_eraseH_nodup {κ : Type} {st : List (Nat × κ)} {n : Nat}
    (h : (st.map Prod.fst).Nodup) : ((eraseH st n).map Prod.fst).Nodup :=
  h.sublist ((eraseH_sublist st n).map Prod.fst)

theorem lookupH_eq_none_iff {κ : Type} {st : List (Nat × κ)} {n : Nat} :
    lookupH st n = none ↔ n ∉ st.map Prod.fst := by
  induction st with
  | nil => simp [lookupH]
  | cons p rest ih =>
    rw [lookupH]
    by_cases hk : p.1 = n
    · simp [hk]
    · simp [hk, ih, Ne.symm hk]

theorem eraseH_of_lookup_none {κ : Type} {st : List (Nat × κ)} {n : Nat}
    (h : lookupH st n = none) : eraseH st n = st := by
  have hmem := lookupH_eq_none_iff.mp h
  apply List.filter_eq_self.mpr
  intro p hp
  have : p.1 ≠ n := by
    intro heq
    exact hmem (List.mem_map.mpr ⟨p, hp, heq⟩)
  simpa using this

theorem lookupH_eraseH_self {κ : Type} (st : List (Nat × κ)) (n : Nat) :
    lookupH (eraseH st n) n = none :=
  lookupH_eq_none_iff.mpr (not_mem_keys_eraseH st n)

theorem jsonID_eq_mod (k : Nat) : jsonID k = k % 2 ^ 64 := by
  induction k with
  | zero => rfl
  | succ k ih => rw [jsonID, ih, Nat.mod_add_mod]

theorem corr_invoked_nodup_go {κ : Type} :
    ∀ (evs : List (CorrEvent κ)) (r : CorrRun κ),
    (r.state.map Prod.fst).Nodup →
    (r.invoked.map Prod.fst).Nodup →
    (∀ n, n ∈ r.invoked.map Prod.fst → n ∉ r.state.map Prod.fst) →
    (regIds evs).Nodup →
    (∀ n, n ∈ regIds evs → n ∉ r.state.map Prod.fst ∧ n ∉ r.invoked.map Prod.fst) →
    ((evs.foldl corrStep r).invoked.map Prod.fst).Nodup
  | [], r, _, h2, _, _, _ => h2
  | .register n f :: evs, r, h1, h2, h3, h4, h5 => by
    rw [List.foldl_cons]
    have hn := h5 n (by simp [regIds])
    have h4' : (regIds evs).Nodup := by
      rw [regIds] at h4
      exact h4.of_cons
    have hfresh : ∀ m, m ∈ regIds evs → m ≠ n := by
      intro m hm heq
      rw [regIds] at h4
      exact (List.nodup_cons.mp h4).1 (heq ▸ hm)
    have hstep : corrStep r (.register n f) =
        { state := insertH r.state n f, invoked := r.invoked } := rfl
    rw [hstep]
    refine corr_invoked_nodup_go evs
      { state := insertH r.state n f, invoked := r.invoked } ?_ h2 ?_ h4' ?_
    · show ((insertH r.state n f).map Prod.fst).Nodup
      rw [insertH, List.map_cons, List.nodup_cons]
      exact ⟨not_mem_keys_eraseH r.state n, keys_eraseH_nodup h1⟩
    · intro m hm
      show m ∉ (insertH r.state n f).map Prod.fst
      rw [insertH, List.map_cons, List.mem_cons]
      rintro (rfl | hmem)
      · exact hn.2 hm
      · exact h3 m hm (keys_eraseH_subset hmem)
    · intro m hm
      have hmn := hfresh m hm
      have hold := h5 m (by rw [regIds]; exact List.mem_cons_of_mem _ hm)
      refine ⟨?_, hold.2⟩
      show m ∉ (insertH r.state n f).map Prod.fst
      rw [insertH, List.map_cons, List.mem_cons]
      rintro (rfl | hmem)
      · exact hmn rfl
      · exact hold.1 (keys_eraseH_subset hmem)
  | .deliver n :: evs, r, h1, h2, h3, h4, h5 => by
    rw [List.foldl_cons]
    have h4' : (regIds evs).Nodup := by rw [regIds] at h4; exact h4
    rcases hl : lookupH r.state n with _ | f
    · have hstep : corrStep r (.deliver n) =
          { state := eraseH r.state n, invoked := r.invoked } := by
        rw [corrStep, hl]
      rw [hstep]
      refine corr_invoked_nodup_go evs
        { state := eraseH r.state n, invoked := r.invoked }
        (keys_eraseH_nodup h1) h2 ?_ h4' ?_
      · intro m hm hmem
        exact h3 m hm (keys_eraseH_subset hmem)
      · intro m hm
        have hold := h5 m (by rw [regIds]; exact hm)
        exact ⟨fun hmem => hold.1 (keys_eraseH_subset hmem), hold.2⟩
    · have hnkey : n ∈ r.state.map Prod.fst :=
        List.mem_map.mpr ⟨(n, f), lookupH_mem hl, rfl⟩
      have hstep : corrStep r (.deliver n) =
          { state := eraseH r.state n, invoked := r.invoked ++ [(n, f)] } := by
        rw [corrStep, hl]
      rw [hstep]
      refine corr_invoked_nodup_go evs
        { state := eraseH r.state n, invoked := r.invoked ++ [(n, f)] }
        (keys_eraseH_nodup h1) ?_ ?_ h4' ?_
      · show ((r.invoked ++ [(n, f)]).map Prod.fst).Nodup
        rw [List.map_append]
        refine List.Nodup.append h2 (by simp) ?_
        intro m hm hm'
        simp at hm'
        exact h3 m hm (hm' ▸ hnkey)
      · intro m hm
        rw [List.map_append, List.mem_append] at hm
        rcases hm with hm | hm
        · exact fun hmem => h3 m hm (keys_eraseH_subset hmem)
        · simp at hm
          rw [hm]
          exact not_mem_keys_eraseH r.state n
      · intro m hm
        have hold := h5 m (by rw [regIds]; exact hm)
        refine ⟨fun hmem => hold.1 (keys_eraseH_subset hmem), ?_⟩
        rw [List.map_append, List.mem_append]
        rintro (hmem | hmem)
        · exact hold.2 hmem
        · simp at hmem
          exact hold.1 (hmem ▸ hnkey)

theorem corr_invoked_provenance {κ : Type} :
    ∀ (evs : List (CorrEvent κ)) (r : CorrRun κ) (p : Nat × κ),
    p ∈ (evs.foldl corrStep r).invoked →
    p ∈ r.invoked ∨ p ∈ r.state ∨ CorrEvent.register p.1 p.2 ∈ evs
  | [], _, _, h => Or.inl h
  | .register n f :: evs, r, p, h => by
    rw [List.foldl_cons] at h
    rcases corr_invoked_provenance evs _ p h with h' | h' | h'
    · exact Or.inl h'
    · show _ ∨ _ ∨ _ ∈ _ :: _
      rcases (List.mem_cons.mp h' : p = (n, f) ∨ p ∈ eraseH r.state n) with rfl | hmem
      · right; right
        exact List.mem_cons_self _ _
      · right; left
        exact (mem_eraseH.mp hmem).1
    · right; right
      exact List.mem_cons_of_mem _ h'
  | .deliver n :: evs, r, p, h => by
    rw [List.foldl_cons] at h
    rcases hl : lookupH r.state n with _ | f
    · rw [corrStep, hl] at h
      rcases corr_invoked_provenance evs _ p h with h' | h' | h'
      · exact Or.inl h'
      · exact Or.inr (Or.inl (mem_eraseH.mp h').1)
      · exact Or.inr (Or.inr (List.mem_cons_of_mem _ h'))
    · rw [corrStep, hl] at h
      rcases corr_invoked_provenance evs _ p h with h' | h' | h'
      · rcases List.mem_append.mp h' with h'' | h''
        · exact Or.inl h''
        · simp at h''
          subst h''
          exact Or.inr (Or.inl (lookupH_mem hl))
      · exact Or.inr (Or.inl (mem_eraseH.mp h').1)
      · exact Or.inr (Or.inr (List.mem_cons_of_mem _ h'))

theorem accountBalanceMsgs_of_shape_false {mk : Int → ChanMsg} {v : JsonValue}
    (h : balanceShape v = false) : accountBalanceMsgs mk v = [] := by
  cases v with
  | obj fields =>
    rw [balanceShape] at h
    rw [accountBalanceMsgs]
    simp only [asObj] at h ⊢
    cases hacc : objGet fields "account" with
    | none => rfl
    | some av =>
      cases av <;> rw [hacc] at h <;> try rfl
      cases hnot : objGet fields "notification" with
      | none => rfl
      | some nv =>
        rw [hnot] at h
        cases nv <;> first
          | rfl
          | (simp at h)
  | null => rfl
  | bool b => rfl
  | num n => rfl
  | str s => rfl
  | arr l => rfl

theorem unlockRetryCount_le_one : ∀ evs, unlockRetryCount evs ≤ 1
  | [] => Nat.zero_le 1
  | .closed :: _ => Nat.zero_le 1
  | .sent true :: _ => Nat.le_refl 1
  | .sent false :: rest => unlockRetryCount_le_one rest

theorem unlockRetryCount_replicate_false_append (k : Nat) (tail : List UnlockEvent) :
    unlockRetryCount (List.replicate k (.sent false) ++ tail) = unlockRetryCount tail := by
  induction k with
  | zero => rfl
  | succ k ih => rw [List.replicate_succ, List.cons_append, unlockRetryCount, ih]

theorem unlockDialogEvents_ok_false_replicate (k : Nat) (tail : List DialogResponse) :
    unlockDialogEvents (List.replicate k (.ok false) ++ tail) =
      List.replicate k (UnlockEvent.sent false) ++ unlockDialogEvents tail := by
  induction k with
  | zero => rfl
  | succ k ih =>
    rw [List.replicate_succ, List.cons_append, unlockDialogEvents, ih,
        List.replicate_succ, List.cons_append]
    rfl

/-! ## Claim theorems -/

/-- Claim C2: the id generator (`JSONIDGenerator`) emits 0, 1, 2, ...:
its first issued id is 0, each subsequent id is one greater than the
previous wrapping only at `uint64` overflow, and hence no id is issued
twice within the first `2 ^ 64` issues (while a pending request
registered under it could still be outstanding). -/
theorem claim_C2_id_generator :
    jsonID 0 = 0 ∧
    (∀ k, jsonID (k + 1) = (jsonID k + 1) % 2 ^ 64) ∧
    (∀ i j, i < j → j < 2 ^ 64 → jsonID i ≠ jsonID j) := by
  refine ⟨rfl, fun k => rfl, ?_⟩
  intro i j hij hj
  rw [jsonID_eq_mod, jsonID_eq_mod,
      Nat.mod_eq_of_lt (lt_trans hij hj), Nat.mod_eq_of_lt hj]
  exact Nat.ne_of_lt hij

/-- Witness for C2 at the concrete issue indices 0 and 1. -/
theorem claim_C2_id_generator_witness :
    0 < 1 ∧ 1 < 2 ^ 64 ∧ jsonID 0 ≠ jsonID 1 :=
  ⟨by decide, by norm_num, claim_C2_id_generator.2.2 0 1 (by decide) (by norm_num)⟩

theorem normalizeVerString_appPreRelease : normalizeVerString appPreRelease = "alpha" := by
  rw [normalizeVerString]
  have hp : (fun r => semanticAlphabet.contains r)
      = (fun r => decide (r ∈ semanticAlphabet.data)) := by
    funext r
    rw [Bool.eq_iff_iff]
    simp [String.contains_iff]
  rw [hp]
  simp [semanticAlphabet, appPreRelease]

theorem normalizeVerString_empty : normalizeVerString "" = "" := by
  rw [normalizeVerString]
  simp

/-- Claim C9: `appVersion.String` does not depend on its receiver's
fields — it is built solely from the package constants `appMajor`,
`appMinor`, `appPatch`, `appPreRelease` and the variable `appBuild` —
so any two `appVersion` values yield identical strings and
`SaveToDataDir` always writes the running build's version regardless
of the receiver.  With an empty `appBuild` the string is always
`"0.2.0-alpha"`. -/
theorem claim_C9_version_string_receiver_independent :
    (∀ b v₁ v₂, appVersionString b v₁ = appVersionString b v₂) ∧
    (∀ b v₁ v₂, saveToDataDirContents b v₁ = saveToDataDirContents b v₂) ∧
    (∀ v, appVersionString "" v = "0.2.0-alpha") := by
  refine ⟨fun _ _ _ => rfl, fun _ _ _ => rfl, fun v => ?_⟩
  simp only [appVersionString, normalizeVerString_appPreRelease, normalizeVerString_empty]
  decide

/-- Claim C1: for every serialized trace of registrations (concurrently
issued commands) and reply deliveries (in any arrival order), provided
the registered ids are pairwise distinct (as issued by the monotone id
generator), no id is dispatched to more than one callback and no
callback is invoked more than once — the invocation log has pairwise
distinct ids and every invocation is a callback that was registered
under exactly that id; moreover a delivery that finds a matching
registration removes it from the pending-request map and invokes
exactly that callback. -/
theorem claim_C1_dispatch_exactly_once {κ : Type} (evs : List (CorrEvent κ))
    (hids : (regIds evs).Nodup) :
    (((corrRun evs).invoked.map Prod.fst).Nodup) ∧
    (∀ p : Nat × κ, p ∈ (corrRun evs).invoked → CorrEvent.register p.1 p.2 ∈ evs) ∧
    (∀ (st inv : List (Nat × κ)) (n : Nat) (f : κ), lookupH st n = some f →
      corrStep ⟨st, inv⟩ (.deliver n) = ⟨eraseH st n, inv ++ [(n, f)]⟩) := by
  refine ⟨?_, ?_, ?_⟩
  · exact corr_invoked_nodup_go evs ⟨[], []⟩ (by simp) (by simp) (by simp) hids
      (fun n _ => by simp)
  · intro p hp
    rcases corr_invoked_provenance evs ⟨[], []⟩ p hp with h | h | h
    · simp at h
    · simp at h
    · exact h
  · intro st inv n f h
    show (match lookupH st n with
          | some f => ({ state := eraseH st n, invoked := inv ++ [(n, f)] } : CorrRun κ)
          | none => { state := eraseH st n, invoked := inv }) = _
    rw [h]

/-- Witness for C1: a concrete trace with two registrations, a
duplicate delivery for id 2 and a delivery for id 1. -/
theorem claim_C1_dispatch_exactly_once_witness :
    (regIds [CorrEvent.register 1 10, CorrEvent.register 2 20, CorrEvent.deliver 2,
             CorrEvent.deliver 2, CorrEvent.deliver 1]).Nodup ∧
    ((corrRun [CorrEvent.register 1 10, CorrEvent.register 2 20, CorrEvent.deliver 2,
               CorrEvent.deliver 2, CorrEvent.deliver 1]).invoked.map Prod.fst).Nodup :=
  ⟨by decide,
   (claim_C1_dispatch_exactly_once
     [CorrEvent.register 1 10, CorrEvent.register 2 20, CorrEvent.deliver 2,
      CorrEvent.deliver 2, CorrEvent.deliver 1] (by decide)).1⟩

/-- Counterexample to Claim C3 as stated: for the senders
`cmdWalletPassphrase` and `cmdSendMany`, a failed transport write
leaves the just-registered handler in the pending-request map and
invokes no completion/error path — the write error is merely returned
to a caller that discards it. -/
theorem claim_C3_counterexample :
    (cmdWalletPassphrase [] 0 false).emitted = [] ∧
    (lookupH (cmdWalletPassphrase [] 0 false).handlers 0).isSome = true ∧
    (cmdWalletPassphrase [] 0 false).retErr = true ∧
    (cmdSendMany [] 0 false).emitted = [] ∧
    (lookupH (cmdSendMany [] 0 false).handlers 0).isSome = true :=
  ⟨rfl, rfl, rfl, rfl, rfl⟩

/-- Claim C3 (amended): on a failed transport write,
`cmdGetNewAddress` removes the just-registered handler and sends the
transport error to its reply channel exactly once, while
`cmdWalletPassphrase` and `cmdSendMany` leave the registration dangling
and invoke no completion path, returning the write error to their
(discarding) callers instead. -/
theorem claim_C3_write_failure_cleanup :
    ∀ (st : List (Nat × Handler)) (n : Nat),
    (cmdGetNewAddress st n false).emitted = [ChanMsg.newAddrTransportErr] ∧
    lookupH (cmdGetNewAddress st n false).handlers n = none ∧
    (cmdGetNewAddress st n true).handlers = insertH st n newAddrHandler ∧
    (cmdWalletPassphrase st n false).emitted = [] ∧
    lookupH (cmdWalletPassphrase st n false).handlers n = some walletPassphraseHandler ∧
    (cmdWalletPassphrase st n false).retErr = true ∧
    (cmdSendMany st n false).emitted = [] ∧
    lookupH (cmdSendMany st n false).handlers n = some sendManyHandler ∧
    (cmdSendMany st n false).retErr = true := by
  intro st n
  refine ⟨rfl, ?_, rfl, rfl, ?_, rfl, rfl, ?_, rfl⟩
  · exact lookupH_eraseH_self (insertH st n newAddrHandler) n
  · exact lookupH_insert_self st n walletPassphraseHandler
  · exact lookupH_insert_self st n sendManyHandler

/-- Counterexample to Claim C4 as stated: on a successful dial,
`ListenAndUpdate` sends the nil (connected) notice — which makes the
reconnect loop push `connected=true` — strictly before the
subscription/initial-request goroutines are even started, not after
they complete. -/
theorem claim_C4_counterexample :
    (listenAndUpdateConnTrace true).findIdx
        (fun s => decide (s = LAUStep.emit ConnNotice.connected)) <
      (listenAndUpdateConnTrace true).findIdx
        (fun s => decide (s = LAUStep.spawnWalletReqs)) := by
  decide

/-- Claim C4 (amended): on `ConnectionLost` or `ConnectionRefused` the
reconnect loop pushes `connected=false` to the UI bridge before the
fixed 5-second backoff that precedes the next connection attempt, and
it pushes `connected=true` only upon the nil notice that
`ListenAndUpdate` emits after a fresh successful handshake — but
before, not after, the subscription requests are issued. -/
theorem claim_C4_reconnect_loop :
    (∀ e, (e = ConnNotice.refused ∨ e = ConnNotice.lost) →
      handleConnNotice e = [.pushBtcwalletConnected false, .sleepBackoff]) ∧
    handleConnNotice .connected = [.pushBtcwalletConnected true, .logEstablished] ∧
    listenAndUpdateConnTrace false = [.startUpdaters, .emit .refused] ∧
    listenAndUpdateConnTrace true =
      [.startUpdaters, .emit .connected, .spawnReadLoop,
       .spawnWalletReqs, .spawnBtcdReqs, .enterSelectLoop] := by
  refine ⟨?_, rfl, rfl, rfl⟩
  rintro e (rfl | rfl) <;> rfl

/-- Witness for the amended C4 at the concrete lost notice. -/
theorem claim_C4_reconnect_loop_witness :
    (ConnNotice.lost = ConnNotice.refused ∨ ConnNotice.lost = ConnNotice.lost) ∧
    handleConnNotice .lost = [.pushBtcwalletConnected false, .sleepBackoff] :=
  ⟨Or.inr rfl, claim_C4_reconnect_loop.1 .lost (Or.inr rfl)⟩

/-- Claim C5: a reply carrying daemon error code -13 (wallet must be
unlocked / keypool exhausted) triggers the unlock-dialog flow; after a
successful unlock (possibly preceded by failed attempts) the original
command is re-issued exactly once through the same code path, a
cancelled dialog aborts with no retry, at most one retry ever happens,
any other reply causes no retry, and the spec-modelled `getnewaddress`
consumer behaves identically. -/
theorem claim_C5_unlock_retry (e : BtcError) (he : e.code = -13) :
    txSenderShowsUnlockDialog (some e) = true ∧
    (∀ events, txSenderRetries (some e) events ≤ 1) ∧
    (∀ k, txSenderRetries (some e)
        (unlockDialogEvents (List.replicate k (.ok false) ++ [.ok true])) = 1) ∧
    (∀ k, txSenderRetries (some e)
        (unlockDialogEvents (List.replicate k (.ok false) ++ [.cancel])) = 0) ∧
    (∀ e₂ : BtcError, e₂.code ≠ -13 → ∀ events, txSenderRetries (some e₂) events = 0) ∧
    (∀ events, txSenderRetries none events = 0) ∧
    (∀ events, newAddrRetries (some e) events = txSenderRetries (some e) events) := by
  refine ⟨?_, ?_, ?_, ?_, ?_, fun _ => rfl, fun _ => rfl⟩
  · simp [txSenderShowsUnlockDialog, he]
  · intro events
    rw [txSenderRetries, if_pos he]
    exact unlockRetryCount_le_one events
  · intro k
    rw [txSenderRetries, if_pos he, unlockDialogEvents_ok_false_replicate,
        unlockRetryCount_replicate_false_append]
    rfl
  · intro k
    rw [txSenderRetries, if_pos he, unlockDialogEvents_ok_false_replicate,
        unlockRetryCount_replicate_false_append]
    rfl
  · intro e₂ he₂ events
    rw [txSenderRetries, if_neg he₂]

/-- Witness for C5 at the concrete -13 reply and a dialog run with one
failed attempt followed by a successful unlock. -/
theorem claim_C5_unlock_retry_witness :
    (BtcError.mk (-13) "keypool ran out").code = -13 ∧
    txSenderShowsUnlockDialog (some (BtcError.mk (-13) "keypool ran out")) = true ∧
    txSenderRetries (some (BtcError.mk (-13) "keypool ran out"))
      (unlockDialogEvents (List.replicate 1 (.ok false) ++ [.ok true])) = 1 := by
  have h := claim_C5_unlock_retry (BtcError.mk (-13) "keypool ran out") rfl
  exact ⟨rfl, h.1, h.2.2.1 1⟩

/-- Counterexample to Claim C6 as stated: a reply frame with an
unregistered numeric id is dropped silently — the select loop emits no
log output at all for it (part_004 lines 223-229 log nothing when no
handler is found), so "logged and dropped" fails on the "logged"
half. -/
theorem claim_C6_counterexample :
    processFrame ([] : List (Nat × Handler))
      (Frame.reply (some (JsonValue.num 7)) JsonValue.null none) = some ([], []) := rfl

/-- Claim C6 (amended): a reply frame with an unregistered numeric id
is dropped silently (no log message is emitted for it): no callback
runs, the state is unchanged, processing does not crash, and the read
loop continues with the subsequent frames exactly as if the frame had
not occurred. -/
theorem claim_C6_unregistered_id_dropped :
    ∀ (st : List (Nat × Handler)) (x : Int) (result : JsonValue)
      (error : Option BtcError) (rest : List Frame),
    lookupH st (toUint64 x) = none →
    processFrame st (Frame.reply (some (JsonValue.num x)) result error) = some (st, []) ∧
    processFrames st (Frame.reply (some (JsonValue.num x)) result error :: rest) =
      processFrames st rest := by
  intro st x result error rest h
  have h1 : processFrame st (.reply (some (.num x)) result error) = some (st, []) := by
    show (match lookupH st (toUint64 x) with
          | some f => some (eraseH st (toUint64 x),
              [FrameOut.callback (toUint64 x) (f result error)])
          | none => some (eraseH st (toUint64 x), [])) = some (st, [])
    rw [h, eraseH_of_lookup_none h]
  refine ⟨h1, ?_⟩
  rw [processFrames, h1]
  cases hp : processFrames st rest with
  | none => simp [hp]
  | some p =>
    cases p
    simp [hp]

/-- Witness for the amended C6 at the empty map and id 7. -/
theorem claim_C6_unregistered_id_dropped_witness :
    lookupH ([] : List (Nat × Handler)) (toUint64 7) = none ∧
    processFrame ([] : List (Nat × Handler))
      (Frame.reply (some (JsonValue.num 7)) JsonValue.null none) = some ([], []) ∧
    processFrames ([] : List (Nat × Handler))
      [Frame.reply (some (JsonValue.num 7)) JsonValue.null none, Frame.malformed] =
      processFrames ([] : List (Nat × Handler)) [Frame.malformed] := by
  have h := claim_C6_unregistered_id_dropped [] 7 JsonValue.null none [Frame.malformed] rfl
  exact ⟨rfl, h.1, h.2⟩

/-- Claim C7: round-trip through the correlator — after issuing
`getnewaddress` (registering its handler under id `n` and writing
successfully), dispatching a synthetic reply envelope with the same
numeric id, a string address result and a null error removes the
registration and hands exactly that address, with no error, to the
completion path. -/
theorem claim_C7_getnewaddress_roundtrip :
    ∀ (st : List (Nat × Handler)) (n : Nat) (addr : String),
    n < 2 ^ 64 →
    processFrame (cmdGetNewAddress st n true).handlers
      (Frame.reply (some (JsonValue.num (Int.ofNat n))) (JsonValue.str addr) none) =
    some (eraseH (insertH st n newAddrHandler) n,
          [FrameOut.callback n [ChanMsg.newAddrAddr addr]]) := by
  intro st n addr hn
  have hid : toUint64 (Int.ofNat n) = n := by
    have : (Int.ofNat n).toNat = n := rfl
    rw [toUint64, this]
    exact Nat.mod_eq_of_lt hn
  have hhandlers : (cmdGetNewAddress st n true).handlers = insertH st n newAddrHandler := rfl
  rw [hhandlers]
  show (match lookupH (insertH st n newAddrHandler) (toUint64 (Int.ofNat n)) with
        | some f => some (eraseH (insertH st n newAddrHandler) (toUint64 (Int.ofNat n)),
            [FrameOut.callback (toUint64 (Int.ofNat n)) (f (JsonValue.str addr) none)])
        | none => some (eraseH (insertH st n newAddrHandler) (toUint64 (Int.ofNat n)), [])) = _
  rw [hid, lookupH_insert_self]
  rfl

/-- Witness for C7: the spec scenario `{id:7, result:"NEW_ADDR",
error:null}`. -/
theorem claim_C7_getnewaddress_roundtrip_witness :
    7 < 2 ^ 64 ∧
    processFrame (cmdGetNewAddress [] 7 true).handlers
      (Frame.reply (some (JsonValue.num (Int.ofNat 7))) (JsonValue.str "NEW_ADDR") none) =
    some (eraseH (insertH [] 7 newAddrHandler) 7,
          [FrameOut.callback 7 [ChanMsg.newAddrAddr "NEW_ADDR"]]) :=
  ⟨by norm_num, claim_C7_getnewaddress_roundtrip [] 7 "NEW_ADDR" (by norm_num)⟩

/-- Claim C8: every account-scoped notification (balance,
unconfirmed balance, lock state) whose `"account"` field is a
non-default (non-empty) account string pushes nothing to any update
channel. -/
theorem claim_C8_nondefault_account_ignored :
    ∀ (fields : List (String × JsonValue)) (a : String),
    a ≠ "" →
    objGet fields "account" = some (.str a) →
    handleBtcwalletNtfn "btcwallet:accountbalance" (.obj fields) = some [] ∧
    handleBtcwalletNtfn "btcwallet:accountbalanceunconfirmed" (.obj fields) = some [] ∧
    handleBtcwalletNtfn "btcwallet:newwalletlockstate" (.obj fields) = some [] := by
  intro fields a ha hacc
  have hbal : ∀ mk, accountBalanceMsgs mk (.obj fields) = [] := by
    intro mk
    rw [accountBalanceMsgs]
    show (match objGet fields "account" with
          | some (.str account) =>
            (match objGet fields "notification" with
             | some (.num balance) => if account = "" then [mk balance] else []
             | _ => [])
          | _ => ([] : List ChanMsg)) = []
    rw [hacc]
    cases hnot : objGet fields "notification" with
    | none => rfl
    | some nv =>
      cases nv <;> simp [ha]
  have hlock : lockStateMsgs (.obj fields) = some [] := by
    rw [lockStateMsgs]
    show (match objGet fields "account" with
          | some (.str account) =>
            if account = "" then
              (match objGet fields "notification" with
               | some (.bool b) => some [ChanMsg.lockState b]
               | _ => none)
            else some []
          | _ => none) = some []
    rw [hacc]
    simp [ha]
  exact ⟨congrArg some (hbal ChanMsg.balance),
         congrArg some (hbal ChanMsg.unconfirmed), hlock⟩

/-- Witness for C8 at a concrete non-default account payload. -/
theorem claim_C8_nondefault_account_ignored_witness :
    ("savings" : String) ≠ "" ∧
    objGet [("account", JsonValue.str "savings"), ("notification", JsonValue.num 5)]
      "account" = some (.str "savings") ∧
    handleBtcwalletNtfn "btcwallet:accountbalance"
      (.obj [("account", JsonValue.str "savings"), ("notification", JsonValue.num 5)]) =
      some [] := by
  have h := claim_C8_nondefault_account_ignored
    [("account", JsonValue.str "savings"), ("notification", JsonValue.num 5)]
    "savings" (by decide) rfl
  exact ⟨by decide, rfl, h.1⟩

/-- Claim C10: for the four shape-checked notification methods
(`btcdconnected`, `newblockchainheight`, `accountbalance`,
`accountbalanceunconfirmed`), any payload whatsoever is handled
without panicking, and a payload without the expected dynamic shape
produces no channel push at all. -/
theorem claim_C10_malformed_payload_safe :
    ∀ (id : String) (v : JsonValue),
    (id = "btcwallet:btcdconnected" ∨ id = "btcwallet:newblockchainheight" ∨
     id = "btcwallet:accountbalance" ∨ id = "btcwallet:accountbalanceunconfirmed") →
    (handleBtcwalletNtfn id v).isSome = true ∧
    (expectedShape id v = false → handleBtcwalletNtfn id v = some []) := by
  intro id v hid
  rcases hid with rfl | rfl | rfl | rfl
  · refine ⟨rfl, fun hshape => ?_⟩
    have hb : asBool v = none := by
      rw [expectedShape] at hshape
      simp at hshape
      exact Option.not_isSome_iff_eq_none.mp (by simp [hshape])
    show some (match asBool v with
               | some r => [ChanMsg.btcdConnected r]
               | none => []) = some []
    rw [hb]
  · refine ⟨rfl, fun hshape => ?_⟩
    have hb : asNum v = none := by
      rw [expectedShape] at hshape
      simp at hshape
      exact Option.not_isSome_iff_eq_none.mp (by simp [hshape])
    show some (match asNum v with
               | some r => [ChanMsg.bcHeight r]
               | none => []) = some []
    rw [hb]
  · refine ⟨rfl, fun hshape => ?_⟩
    have hs : balanceShape v = false := by
      rw [expectedShape] at hshape
      simpa using hshape
    exact congrArg some (accountBalanceMsgs_of_shape_false hs)
  · refine ⟨rfl, fun hshape => ?_⟩
    have hs : balanceShape v = false := by
      rw [expectedShape] at hshape
      simpa using hshape
    exact congrArg some (accountBalanceMsgs_of_shape_false hs)

/-- Witness for C10 at a concrete malformed payload: a string where
`btcdconnected` expects a bool. -/
theorem claim_C10_malformed_payload_safe_witness :
    (("btcwallet:btcdconnected" : String) = "btcwallet:btcdconnected" ∨
     ("btcwallet:btcdconnected" : String) = "btcwallet:newblockchainheight" ∨
     ("btcwallet:btcdconnected" : String) = "btcwallet:accountbalance" ∨
     ("btcwallet:btcdconnected" : String) = "btcwallet:accountbalanceunconfirmed") ∧
    expectedShape "btcwallet:btcdconnected" (JsonValue.str "oops") = false ∧
    handleBtcwalletNtfn "btcwallet:btcdconnected" (JsonValue.str "oops") = some [] := by
  have h := claim_C10_malformed_payload_safe "btcwallet:btcdconnected"
    (JsonValue.str "oops") (Or.inl rfl)
  exact ⟨Or.inl rfl, rfl, h.2 rfl⟩

end Btcgui
